import Mathlib

/-!
Verification of the `lambda_function.py` read-through cache against its
specification.

The program is a single AWS Lambda handler: validate the input event,
look up a record in DynamoDB by the composite key `(RecordID, Title)`,
return it on a hit, otherwise call the OpenAI chat API, parse its JSON
payload, write a record built from it to DynamoDB, and return the parsed
payload.  The three collaborators (DynamoDB `get_item`, the OpenAI call,
DynamoDB `put_item`) are modelled by their outcomes, supplied as
parameters; the handler is then a pure function from the input event and
the collaborator outcomes to a response together with a trace of the
external calls it performed.
-/

namespace EmmyCode

/-- A JSON-like value as it appears in a parsed OpenAI payload or in a
DynamoDB item.  `jstr` is a JSON string; `jnum` is a JSON number,
identified by the string Python's `str()` yields for the parsed value
(the binary-float parsing and shortest-repr printing that produce this
string are not modelled); `jnull` is Python `None`, which boto3 stores as
a DynamoDB NULL attribute. -/
inductive JVal where
  | jstr : String → JVal
  | jnum : String → JVal
  | jnull : JVal
  deriving DecidableEq, Repr

/-- A DynamoDB item: the `Item` dict passed to `put_item` or returned by
`get_item`, as an association list of attribute names to values. -/
abbrev Item := List (String × JVal)

/-- A parsed OpenAI payload: the dict returned by `json.loads`, as an
association list.  (JSON objects have unique keys in the cases the
claims cover.) -/
abbrev Payload := List (String × JVal)

/-- Python `str()` applied to a parsed JSON value, as used at line 124 of
the source (`str(data["Confidence"])`). -/
def pyStr : JVal → String
  | JVal.jstr s => s
  | JVal.jnum r => r
  | JVal.jnull => "None"

/-- Outcome of the DynamoDB `get_item` call: a `botocore` `ClientError`
carrying an error message, or a response whose `"Item"` field is present
or absent (`response.get("Item")`, line 73). -/
inductive FetchOutcome where
  | clientError : String → FetchOutcome
  | response : Option Item → FetchOutcome
  deriving DecidableEq, Repr

/-- Outcome of the OpenAI chat call as observed at the `json.loads`
boundary (lines 89-102): the API call itself raised (network, auth,
rate limit, ...), or it returned content that either fails JSON decoding
(`none`) or parses to an object (`some payload`). -/
inductive AnalyzeOutcome where
  | apiError : String → AnalyzeOutcome
  | content : Option Payload → AnalyzeOutcome
  deriving DecidableEq, Repr

/-- Outcome of the DynamoDB `put_item` call (lines 117-130). -/
inductive PutOutcome where
  | clientError : String → PutOutcome
  | success : PutOutcome
  deriving DecidableEq, Repr

/-- The behaviour of the three collaborators during one invocation: what
each external call would return if performed. -/
structure Behavior where
  fetch : FetchOutcome
  analyze : AnalyzeOutcome
  put : PutOutcome
  deriving DecidableEq, Repr

/-- One external call performed by the handler, recorded in order. -/
inductive Effect where
  | storeGet : String → String → Effect
  | openaiCall : String → Effect
  | storePut : Item → Effect
  deriving DecidableEq, Repr

/-- The Lambda input event.  `event.get(k)` yields `None` for an absent
key; the claims concern string-valued fields, so each field is an
optional string. -/
structure Event where
  RecordID : Option String
  Title : Option String
  OriginalLanguage : Option String
  deriving DecidableEq, Repr

/-- The body of the returned response (the dict passed to `json.dumps`):
either `{"message": ..., "data": ...}` or `{"error": ...}`. -/
inductive Body where
  | ok : String → Item → Body
  | error : String → Body
  deriving DecidableEq, Repr

/-- The handler's return value: `{"statusCode": ..., "body": ...}`. -/
structure Response where
  statusCode : Nat
  body : Body
  deriving DecidableEq, Repr

/-- `get_record` (source lines 58-75): perform `get_item` and return
`response.get("Item")`; a `ClientError` is re-raised as
`Exception(f"DynamoDB error: {...}")`. -/
def get_record (fetch : FetchOutcome) : Except String (Option Item) :=
  match fetch with
  | FetchOutcome.response item => Except.ok item
  | FetchOutcome.clientError m => Except.error ("DynamoDB error: " ++ m)

/-- `process_with_openai` (source lines 77-110): make the chat call and
`json.loads` the message content.  A `json.JSONDecodeError` is re-raised
as the fixed parse-failure message (the re-raise inside the
`except json.JSONDecodeError` clause is not caught by the sibling
`except Exception` clause, so no "OpenAI API error: " prefix is added);
any other exception is re-raised with the "OpenAI API error: " prefix. -/
def process_with_openai (analyze : AnalyzeOutcome) : Except String Payload :=
  match analyze with
  | AnalyzeOutcome.content (some parsed) => Except.ok parsed
  | AnalyzeOutcome.content none =>
      Except.error "Failed to parse the response from OpenAI. Ensure the response is in JSON format."
  | AnalyzeOutcome.apiError m => Except.error ("OpenAI API error: " ++ m)

/-- The `OriginalLanguage` attribute value written by `put_item`: boto3
stores a Python string as a DynamoDB string and Python `None` as a
DynamoDB NULL attribute. -/
def originalLanguageAttr : Option String → JVal
  | some s => JVal.jstr s
  | none => JVal.jnull

/-- The `Item` dict literal of `store_record` (source lines 118-127).
Python evaluates the entries in order, so the first missing key of
`data` raises `KeyError`, whose `str()` is the key name wrapped in
single quotes; this happens before `put_item` is invoked. -/
def build_item (record_id title : String) (original_language : Option String)
    (data : Payload) : Except String Item :=
  match data.lookup "DetectedLanguage" with
  | none => Except.error "\x27DetectedLanguage\x27"
  | some dl =>
    match data.lookup "ISO639LanguageCode" with
    | none => Except.error "\x27ISO639LanguageCode\x27"
    | some code =>
      match data.lookup "Confidence" with
      | none => Except.error "\x27Confidence\x27"
      | some conf =>
        match data.lookup "Transliteration" with
        | none => Except.error "\x27Transliteration\x27"
        | some translit =>
          match data.lookup "Translation" with
          | none => Except.error "\x27Translation\x27"
          | some transl =>
            Except.ok [("RecordID", JVal.jstr record_id),
                       ("Title", JVal.jstr title),
                       ("OriginalLanguage", originalLanguageAttr original_language),
                       ("DetectedLanguage", dl),
                       ("DetectedCode", code),
                       ("Confidence", JVal.jstr (pyStr conf)),
                       ("Transliteration", translit),
                       ("Translation", transl)]

/-- `store_record` (source lines 112-130): build the `Item` dict (a
`KeyError` there propagates before `put_item` is called, so no `storePut`
effect occurs) and call `put_item`; a `ClientError` from `put_item` is
re-raised as `Exception(f"DynamoDB error: {...}")`, after the network
call happened.  Returns the error or unit, together with the effects it
performed. -/
def store_record (put : PutOutcome) (record_id title : String)
    (original_language : Option String) (data : Payload) :
    Except String Unit × List Effect :=
  match build_item record_id title original_language data with
  | Except.error m => (Except.error m, [])
  | Except.ok item =>
    match put with
    | PutOutcome.success => (Except.ok (), [Effect.storePut item])
    | PutOutcome.clientError m =>
        (Except.error ("DynamoDB error: " ++ m), [Effect.storePut item])

/-- The response for invalid input (source lines 20-23). -/
def invalid_input_response : Response × List Effect :=
  (⟨400, Body.error "RecordID and Title are required."⟩, [])

/-- The miss path of `lambda_handler` (source lines 39-49, reached when
`record` is falsy): call OpenAI, store the result, return the parsed
payload; any raised exception reaches the outer `except Exception` and
becomes a 501 response with `str(e)` as the error message. -/
def lambda_handler_miss (b : Behavior) (record_id title : String)
    (original_language : Option String) : Response × List Effect :=
  match process_with_openai b.analyze with
  | Except.error msg =>
      (⟨501, Body.error msg⟩, [Effect.storeGet record_id title, Effect.openaiCall title])
  | Except.ok openai_data =>
    match store_record b.put record_id title original_language openai_data with
    | (Except.error msg, fx) =>
        (⟨501, Body.error msg⟩,
         [Effect.storeGet record_id title, Effect.openaiCall title] ++ fx)
    | (Except.ok _, fx) =>
        (⟨200, Body.ok "Record processed and stored." openai_data⟩,
         [Effect.storeGet record_id title, Effect.openaiCall title] ++ fx)

/-- `lambda_handler` (source lines 8-56).  `not record_id or not title`
is Python falsiness: the field is absent (`None`) or the empty string.
`if record:` is falsy both for `None` (no `"Item"` in the response) and
for an empty dict.  Every exception raised inside the `try` block is
caught by the outer `except Exception` and converted to a 501 response
whose body is `{"error": str(e)}`, so the handler is total. -/
def lambda_handler (b : Behavior) (event : Event) : Response × List Effect :=
  match event.RecordID, event.Title with
  | some record_id, some title =>
    if record_id = "" || title = "" then
      invalid_input_response
    else
      match get_record b.fetch with
      | Except.error msg =>
          (⟨501, Body.error msg⟩, [Effect.storeGet record_id title])
      | Except.ok record =>
        match record with
        | some item =>
          if item.isEmpty then
            lambda_handler_miss b record_id title event.OriginalLanguage
          else
            (⟨200, Body.ok "Record found." item⟩, [Effect.storeGet record_id title])
        | none => lambda_handler_miss b record_id title event.OriginalLanguage
  | _, _ => invalid_input_response

/-! ### Concrete fixtures

The concrete scenario of spec §8: input
`{RecordID: "7", Title: "La Vita è Bella", OriginalLanguage: "Italian"}`
against an empty store and an analysis service returning the five
expected fields. -/

/-- The analysis payload of the concrete scenario, as parsed by
`json.loads`. -/
def payload7 : Payload :=
  [("DetectedLanguage", JVal.jstr "Italian"),
   ("ISO639LanguageCode", JVal.jstr "it"),
   ("Confidence", JVal.jnum "0.95"),
   ("Transliteration", JVal.jstr "La Vita e Bella"),
   ("Translation", JVal.jstr "Life Is Beautiful")]

/-- The input event of the concrete scenario. -/
def event7 : Event := ⟨some "7", some "La Vita è Bella", some "Italian"⟩

/-- Collaborator behaviour of the concrete scenario: store miss,
well-formed analysis payload, successful write. -/
def behavior7 : Behavior :=
  ⟨FetchOutcome.response none, AnalyzeOutcome.content (some payload7),
   PutOutcome.success⟩

/-- The item the concrete scenario writes to the store. -/
def item7 : Item :=
  [("RecordID", JVal.jstr "7"),
   ("Title", JVal.jstr "La Vita è Bella"),
   ("OriginalLanguage", JVal.jstr "Italian"),
   ("DetectedLanguage", JVal.jstr "Italian"),
   ("DetectedCode", JVal.jstr "it"),
   ("Confidence", JVal.jstr "0.95"),
   ("Transliteration", JVal.jstr "La Vita e Bella"),
   ("Translation", JVal.jstr "Life Is Beautiful")]

/-- An analysis payload that is valid JSON but misses the required key
`Translation`. -/
def payloadMissingKey : Payload :=
  [("DetectedLanguage", JVal.jstr "Italian"),
   ("ISO639LanguageCode", JVal.jstr "it"),
   ("Confidence", JVal.jnum "0.95"),
   ("Transliteration", JVal.jstr "La Vita e Bella")]

/-! ### Claims -/

/-- C1, counterexample.  On the spec §8 scenario (miss, successful
analysis, successful write) the operation does return status 200 with
message "Record processed and stored.", and `item7` is written to the
store — but the `data` it returns is the raw parsed payload `payload7`,
not the record written to the store: the returned data lacks `RecordID`,
`Title` and `OriginalLanguage`, keeps the key `ISO639LanguageCode`
instead of `DetectedCode`, and keeps the service's numeric `Confidence`
rather than the stringified one. -/
theorem C1_counterexample :
    (lambda_handler behavior7 event7).1 =
      ⟨200, Body.ok "Record processed and stored." payload7⟩ ∧
    (lambda_handler behavior7 event7).2 =
      [Effect.storeGet "7" "La Vita è Bella",
       Effect.openaiCall "La Vita è Bella",
       Effect.storePut item7] ∧
    payload7 ≠ item7 ∧
    payload7.lookup "RecordID" = none ∧
    item7.lookup "RecordID" = some (JVal.jstr "7") ∧
    payload7.lookup "DetectedCode" = none ∧
    payload7.lookup "Confidence" = some (JVal.jnum "0.95") ∧
    item7.lookup "Confidence" = some (JVal.jstr "0.95") := by
  refine ⟨rfl, rfl, ?_, rfl, rfl, rfl, rfl, rfl⟩
  decide

/-- C1, amended.  On a cache miss with a successful analysis and a
successful store write, the operation returns status 200 with message
"Record processed and stored." and, as its data, the raw parsed analysis
payload unchanged; the record written to the store is the one built by
`store_record` (caller fields plus renamed `DetectedCode` and stringified
`Confidence`) and differs from the returned data whenever they differ as
dicts. -/
theorem C1_miss_returns_raw_payload (b : Behavior) (e : Event)
    (record_id title : String) (p : Payload) (item : Item)
    (hrid : e.RecordID = some record_id) (hrid0 : record_id ≠ "")
    (ht : e.Title = some title) (ht0 : title ≠ "")
    (hfetch : b.fetch = FetchOutcome.response none)
    (hanalyze : b.analyze = AnalyzeOutcome.content (some p))
    (hitem : build_item record_id title e.OriginalLanguage p = Except.ok item)
    (hput : b.put = PutOutcome.success) :
    lambda_handler b e =
      (⟨200, Body.ok "Record processed and stored." p⟩,
       [Effect.storeGet record_id title, Effect.openaiCall title,
        Effect.storePut item]) := by
  obtain ⟨eR, eT, eO⟩ := e
  dsimp only at hrid ht hitem
  subst hrid ht
  simp [lambda_handler, lambda_handler_miss, get_record, process_with_openai,
        store_record, hfetch, hanalyze, hput, hitem, hrid0, ht0]

/-- C1, witness: the amended theorem evaluated on the concrete §8
scenario. -/
theorem C1_witness :
    lambda_handler behavior7 event7 =
      (⟨200, Body.ok "Record processed and stored." payload7⟩,
       [Effect.storeGet "7" "La Vita è Bella",
        Effect.openaiCall "La Vita è Bella",
        Effect.storePut item7]) :=
  C1_miss_returns_raw_payload behavior7 event7 "7" "La Vita è Bella"
    payload7 item7 rfl (by decide) rfl (by decide) rfl rfl rfl rfl

/-- C2: on a hit (the lookup returns a non-empty stored item for the
composite key), the operation returns status 200 with message
"Record found." and the stored item unchanged as data; the only external
call in the trace is the store lookup, so the analysis service is never
invoked.  The handler is a pure function of the event and the
collaborator outcomes, so repeating the invocation yields this identical
result every time. -/
theorem C2_hit_returns_stored_record (b : Behavior) (e : Event)
    (record_id title : String) (item : Item)
    (hrid : e.RecordID = some record_id) (hrid0 : record_id ≠ "")
    (ht : e.Title = some title) (ht0 : title ≠ "")
    (hfetch : b.fetch = FetchOutcome.response (some item))
    (hne : item ≠ []) :
    lambda_handler b e =
      (⟨200, Body.ok "Record found." item⟩, [Effect.storeGet record_id title]) ∧
    ∀ s, Effect.openaiCall s ∉ (lambda_handler b e).2 := by
  obtain ⟨eR, eT, eO⟩ := e
  dsimp only at hrid ht
  subst hrid ht
  constructor
  · simp [lambda_handler, get_record, hfetch, hrid0, ht0, hne]
  · simp [lambda_handler, get_record, hfetch, hrid0, ht0, hne]

/-- C2, witness: a hit on the concrete key returns the stored item. -/
theorem C2_witness :
    lambda_handler
        ⟨FetchOutcome.response (some item7),
         AnalyzeOutcome.apiError "unavailable", PutOutcome.success⟩
        event7 =
      (⟨200, Body.ok "Record found." item7⟩,
       [Effect.storeGet "7" "La Vita è Bella"]) ∧
    ∀ s, Effect.openaiCall s ∉
      (lambda_handler
        ⟨FetchOutcome.response (some item7),
         AnalyzeOutcome.apiError "unavailable", PutOutcome.success⟩
        event7).2 :=
  C2_hit_returns_stored_record _ event7 "7" "La Vita è Bella" item7
    rfl (by decide) rfl (by decide) rfl (by decide)

/-- C3, counterexample.  When the analysis service returns valid JSON
missing the required key `Translation`, the analysis client does NOT
fail with the malformed-response error: `process_with_openai` returns
the parsed payload.  The operation still terminates with an error (the
`KeyError` raised while building the store item, caught at the outer
boundary as a 501) and no store write occurs — but the failure does not
come from the analysis client, contrary to the claim. -/
theorem C3_counterexample :
    process_with_openai
        (AnalyzeOutcome.content (some payloadMissingKey)) =
      Except.ok payloadMissingKey ∧
    lambda_handler
        ⟨FetchOutcome.response none,
         AnalyzeOutcome.content (some payloadMissingKey), PutOutcome.success⟩
        event7 =
      (⟨501, Body.error "\x27Translation\x27"⟩,
       [Effect.storeGet "7" "La Vita è Bella",
        Effect.openaiCall "La Vita è Bella"]) :=
  ⟨rfl, rfl⟩

/-- C3, amended.  On a miss: (a) if the analysis payload is not valid
JSON, the analysis client fails with the fixed malformed-response
message and the operation returns a 501 error with no store write; (b)
if the payload is valid JSON missing a required key, the analysis client
returns it and the operation fails with the `KeyError` message raised
while building the store item, again returning a 501 error with no
store write.  In both cases the trace contains no `storePut`. -/
theorem C3_malformed_or_missing_key_no_write (b : Behavior) (e : Event)
    (record_id title : String)
    (hrid : e.RecordID = some record_id) (hrid0 : record_id ≠ "")
    (ht : e.Title = some title) (ht0 : title ≠ "")
    (hfetch : b.fetch = FetchOutcome.response none) :
    (b.analyze = AnalyzeOutcome.content none →
      lambda_handler b e =
        (⟨501, Body.error "Failed to parse the response from OpenAI. Ensure the response is in JSON format."⟩,
         [Effect.storeGet record_id title, Effect.openaiCall title])) ∧
    (∀ p m, b.analyze = AnalyzeOutcome.content (some p) →
      build_item record_id title e.OriginalLanguage p = Except.error m →
      lambda_handler b e =
        (⟨501, Body.error m⟩,
         [Effect.storeGet record_id title, Effect.openaiCall title])) := by
  obtain ⟨eR, eT, eO⟩ := e
  dsimp only at hrid ht ⊢
  subst hrid ht
  constructor
  · intro hanalyze
    simp [lambda_handler, lambda_handler_miss, get_record, process_with_openai,
          hfetch, hanalyze, hrid0, ht0]
  · intro p m hanalyze hitem
    simp [lambda_handler, lambda_handler_miss, get_record, process_with_openai,
          store_record, hfetch, hanalyze, hitem, hrid0, ht0]

/-- C3, witness: both amended branches evaluated concretely — a
non-JSON payload and the payload missing `Translation`. -/
theorem C3_witness :
    lambda_handler
        ⟨FetchOutcome.response none, AnalyzeOutcome.content none,
         PutOutcome.success⟩ event7 =
      (⟨501, Body.error "Failed to parse the response from OpenAI. Ensure the response is in JSON format."⟩,
       [Effect.storeGet "7" "La Vita è Bella",
        Effect.openaiCall "La Vita è Bella"]) ∧
    lambda_handler
        ⟨FetchOutcome.response none,
         AnalyzeOutcome.content (some payloadMissingKey), PutOutcome.success⟩
        event7 =
      (⟨501, Body.error "\x27Translation\x27"⟩,
       [Effect.storeGet "7" "La Vita è Bella",
        Effect.openaiCall "La Vita è Bella"]) :=
  ⟨(C3_malformed_or_missing_key_no_write _ event7 "7" "La Vita è Bella"
      rfl (by decide) rfl (by decide) rfl).1 rfl,
   (C3_malformed_or_missing_key_no_write _ event7 "7" "La Vita è Bella"
      rfl (by decide) rfl (by decide) rfl).2 payloadMissingKey
      "\x27Translation\x27" rfl rfl⟩

/-- C4: whenever `RecordID` or `Title` is absent or the empty string,
the operation returns the 400 client-error status with the error body
`{"error": "RecordID and Title are required."}` and performs no external
call at all: the trace is empty, so neither the store nor the analysis
service is invoked.  The 400 tier is distinct from the 501 tier used for
every other failure. -/
theorem C4_invalid_input (b : Behavior) (e : Event)
    (h : e.RecordID = none ∨ e.RecordID = some "" ∨
         e.Title = none ∨ e.Title = some "") :
    lambda_handler b e =
      (⟨400, Body.error "RecordID and Title are required."⟩, []) := by
  obtain ⟨eR, eT, eO⟩ := e
  dsimp only at h
  cases eR with
  | none => cases eT <;> rfl
  | some rid =>
    cases eT with
    | none => rfl
    | some t =>
      have h2 : rid = "" ∨ t = "" := by
        rcases h with h | h | h | h
        · exact absurd h (by simp)
        · exact Or.inl (by injection h)
        · exact absurd h (by simp)
        · exact Or.inr (by injection h)
      rcases h2 with h2 | h2 <;> subst h2 <;>
        simp [lambda_handler, invalid_input_response]

/-- C4, witness: the spec §8 example `{RecordID: "42"}` with no
`Title`. -/
theorem C4_witness :
    lambda_handler behavior7 ⟨some "42", none, none⟩ =
      (⟨400, Body.error "RecordID and Title are required."⟩, []) :=
  C4_invalid_input behavior7 ⟨some "42", none, none⟩ (Or.inr (Or.inr (Or.inl rfl)))

/-- C6: when the store write fails after a successful analysis call, the
operation returns a 501 error response carrying only the store error
message; the computed analysis payload appears nowhere in the response
body, so it is discarded and no fallback success response carries it.
The write attempt itself (the `put_item` network call) does occur and is
the last effect in the trace. -/
theorem C6_store_failure_discards_result (b : Behavior) (e : Event)
    (record_id title : String) (p : Payload) (item : Item) (m : String)
    (hrid : e.RecordID = some record_id) (hrid0 : record_id ≠ "")
    (ht : e.Title = some title) (ht0 : title ≠ "")
    (hfetch : b.fetch = FetchOutcome.response none)
    (hanalyze : b.analyze = AnalyzeOutcome.content (some p))
    (hitem : build_item record_id title e.OriginalLanguage p = Except.ok item)
    (hput : b.put = PutOutcome.clientError m) :
    lambda_handler b e =
      (⟨501, Body.error ("DynamoDB error: " ++ m)⟩,
       [Effect.storeGet record_id title, Effect.openaiCall title,
        Effect.storePut item]) ∧
    ∀ msg d, (lambda_handler b e).1.body ≠ Body.ok msg d := by
  obtain ⟨eR, eT, eO⟩ := e
  dsimp only at hrid ht hitem
  subst hrid ht
  constructor
  · simp [lambda_handler, lambda_handler_miss, get_record, process_with_openai,
          store_record, hfetch, hanalyze, hput, hitem, hrid0, ht0]
  · intro msg d
    simp [lambda_handler, lambda_handler_miss, get_record, process_with_openai,
          store_record, hfetch, hanalyze, hput, hitem, hrid0, ht0]

/-- C6, witness: the concrete scenario with a failing write. -/
theorem C6_witness :
    lambda_handler
        ⟨FetchOutcome.response none, AnalyzeOutcome.content (some payload7),
         PutOutcome.clientError "ProvisionedThroughputExceeded"⟩ event7 =
      (⟨501, Body.error ("DynamoDB error: " ++ "ProvisionedThroughputExceeded")⟩,
       [Effect.storeGet "7" "La Vita è Bella",
        Effect.openaiCall "La Vita è Bella",
        Effect.storePut item7]) ∧
    ∀ msg d,
      (lambda_handler
        ⟨FetchOutcome.response none, AnalyzeOutcome.content (some payload7),
         PutOutcome.clientError "ProvisionedThroughputExceeded"⟩ event7).1.body ≠
        Body.ok msg d :=
  C6_store_failure_discards_result _ event7 "7" "La Vita è Bella" payload7
    item7 "ProvisionedThroughputExceeded" rfl (by decide) rfl (by decide)
    rfl rfl rfl rfl

/-- C9: when `OriginalLanguage` is absent from the input, the item the
miss path passes to `put_item` still carries an `OriginalLanguage`
attribute, whose value is the NULL that boto3 writes for Python `None`
— the field is written, not omitted — and that item is the one in the
trace's `storePut` effect. -/
theorem C9_original_language_null_written (b : Behavior) (e : Event)
    (record_id title : String) (p : Payload) (item : Item)
    (hrid : e.RecordID = some record_id) (hrid0 : record_id ≠ "")
    (ht : e.Title = some title) (ht0 : title ≠ "")
    (hol : e.OriginalLanguage = none)
    (hfetch : b.fetch = FetchOutcome.response none)
    (hanalyze : b.analyze = AnalyzeOutcome.content (some p))
    (hitem : build_item record_id title e.OriginalLanguage p = Except.ok item) :
    item.lookup "OriginalLanguage" = some JVal.jnull ∧
    Effect.storePut item ∈ (lambda_handler b e).2 := by
  obtain ⟨eR, eT, eO⟩ := e
  dsimp only at hrid ht hol hitem
  subst hrid ht hol
  constructor
  · unfold build_item at hitem
    repeat' split at hitem
    all_goals cases hitem
    all_goals rfl
  · cases hb : b.put <;>
      simp [lambda_handler, lambda_handler_miss, get_record,
            process_with_openai, store_record, hfetch, hanalyze, hitem, hb,
            hrid0, ht0]

/-- C9, witness: the concrete scenario without `OriginalLanguage`. -/
theorem C9_witness :
    (build_item "7" "La Vita è Bella" none payload7).toOption.getD [] =
      [("RecordID", JVal.jstr "7"),
       ("Title", JVal.jstr "La Vita è Bella"),
       ("OriginalLanguage", JVal.jnull),
       ("DetectedLanguage", JVal.jstr "Italian"),
       ("DetectedCode", JVal.jstr "it"),
       ("Confidence", JVal.jstr "0.95"),
       ("Transliteration", JVal.jstr "La Vita e Bella"),
       ("Translation", JVal.jstr "Life Is Beautiful")] ∧
    ([("RecordID", JVal.jstr "7"),
      ("Title", JVal.jstr "La Vita è Bella"),
      ("OriginalLanguage", JVal.jnull),
      ("DetectedLanguage", JVal.jstr "Italian"),
      ("DetectedCode", JVal.jstr "it"),
      ("Confidence", JVal.jstr "0.95"),
      ("Transliteration", JVal.jstr "La Vita e Bella"),
      ("Translation", JVal.jstr "Life Is Beautiful")] : Item).lookup
        "OriginalLanguage" = some JVal.jnull ∧
    Effect.storePut
        [("RecordID", JVal.jstr "7"),
         ("Title", JVal.jstr "La Vita è Bella"),
         ("OriginalLanguage", JVal.jnull),
         ("DetectedLanguage", JVal.jstr "Italian"),
         ("DetectedCode", JVal.jstr "it"),
         ("Confidence", JVal.jstr "0.95"),
         ("Transliteration", JVal.jstr "La Vita e Bella"),
         ("Translation", JVal.jstr "Life Is Beautiful")] ∈
      (lambda_handler
        ⟨FetchOutcome.response none, AnalyzeOutcome.content (some payload7),
         PutOutcome.success⟩
        ⟨some "7", some "La Vita è Bella", none⟩).2 := by
  refine ⟨rfl, ?_, ?_⟩
  · exact (C9_original_language_null_written
      ⟨FetchOutcome.response none, AnalyzeOutcome.content (some payload7),
       PutOutcome.success⟩
      ⟨some "7", some "La Vita è Bella", none⟩ "7" "La Vita è Bella" payload7
      _ rfl (by decide) rfl (by decide) rfl rfl rfl rfl).1
  · exact (C9_original_language_null_written
      ⟨FetchOutcome.response none, AnalyzeOutcome.content (some payload7),
       PutOutcome.success⟩
      ⟨some "7", some "La Vita è Bella", none⟩ "7" "La Vita è Bella" payload7
      _ rfl (by decide) rfl (by decide) rfl rfl rfl rfl).2

/-- Helper: the trace of the miss path is the lookup and analysis calls,
followed by a write exactly when the analysis payload parsed and all
required keys were present. -/
theorem lambda_handler_miss_trace (b : Behavior) (record_id title : String)
    (eO : Option String) :
    (lambda_handler_miss b record_id title eO).2 =
      [Effect.storeGet record_id title, Effect.openaiCall title] ∨
    (∃ item, (lambda_handler_miss b record_id title eO).2 =
      [Effect.storeGet record_id title, Effect.openaiCall title,
       Effect.storePut item] ∧
      ∃ p, process_with_openai b.analyze = Except.ok p ∧
        build_item record_id title eO p = Except.ok item) := by
  cases ha : process_with_openai b.analyze with
  | error msg => left; simp [lambda_handler_miss, ha]
  | ok p =>
    cases hb : build_item record_id title eO p with
    | error m => left; simp [lambda_handler_miss, store_record, ha, hb]
    | ok item =>
      right
      refine ⟨item, ?_, p, rfl, hb⟩
      cases hp : b.put <;>
        simp [lambda_handler_miss, store_record, ha, hb, hp]

/-- Helper: the miss path returns either a 200 success carrying a
payload or a 501 error. -/
theorem lambda_handler_miss_status (b : Behavior) (record_id title : String)
    (eO : Option String) :
    (∃ p, (lambda_handler_miss b record_id title eO).1 =
       ⟨200, Body.ok "Record processed and stored." p⟩) ∨
    (∃ m, (lambda_handler_miss b record_id title eO).1 =
       ⟨501, Body.error m⟩) := by
  cases ha : process_with_openai b.analyze with
  | error msg => right; exact ⟨msg, by simp [lambda_handler_miss, ha]⟩
  | ok p =>
    cases hb : build_item record_id title eO p with
    | error m =>
      right; exact ⟨m, by simp [lambda_handler_miss, store_record, ha, hb]⟩
    | ok item =>
      cases hp : b.put with
      | clientError m =>
        right
        exact ⟨"DynamoDB error: " ++ m,
          by simp [lambda_handler_miss, store_record, ha, hb, hp]⟩
      | success =>
        left
        exact ⟨p, by simp [lambda_handler_miss, store_record, ha, hb, hp]⟩

/-- Helper: on valid input and a missed lookup (`"Item"` absent or an
empty dict), the handler runs the miss path. -/
theorem lambda_handler_eq_miss (b : Behavior) (eO : Option String)
    (record_id title : String) (record : Option Item)
    (hrid0 : record_id ≠ "") (ht0 : title ≠ "")
    (hfetch : b.fetch = FetchOutcome.response record)
    (hmiss : record = none ∨ record = some []) :
    lambda_handler b ⟨some record_id, some title, eO⟩ =
      lambda_handler_miss b record_id title eO := by
  rcases hmiss with h | h <;> subst h <;>
    simp [lambda_handler, get_record, hfetch, hrid0, ht0]

/-- C7: in every invocation the effect trace is one of four strictly
sequential prefixes — no call, lookup only, lookup then analysis, or
lookup then analysis then write — so each external call happens at most
once and is never retried; the analysis call appears only when the
lookup returned a falsy record (absent or an empty dict), and the write
appears only when the analysis call succeeded and every required key was
present. -/
theorem C7_strict_sequencing (b : Behavior) (e : Event) :
    (lambda_handler b e).2 = [] ∨
    (∃ record_id title,
      (lambda_handler b e).2 = [Effect.storeGet record_id title]) ∨
    (∃ record_id title,
      (lambda_handler b e).2 =
        [Effect.storeGet record_id title, Effect.openaiCall title] ∧
      ∃ record, get_record b.fetch = Except.ok record ∧
        (record = none ∨ record = some [])) ∨
    (∃ record_id title item,
      (lambda_handler b e).2 =
        [Effect.storeGet record_id title, Effect.openaiCall title,
         Effect.storePut item] ∧
      (∃ record, get_record b.fetch = Except.ok record ∧
        (record = none ∨ record = some [])) ∧
      ∃ p, process_with_openai b.analyze = Except.ok p ∧
        build_item record_id title e.OriginalLanguage p = Except.ok item) := by
  obtain ⟨eR, eT, eO⟩ := e
  cases eR with
  | none => left; rfl
  | some record_id =>
    cases eT with
    | none => left; rfl
    | some title =>
      by_cases hrid0 : record_id = ""
      · left; simp [lambda_handler, hrid0, invalid_input_response]
      by_cases ht0 : title = ""
      · left; simp [lambda_handler, ht0, invalid_input_response]
      cases hf : b.fetch with
      | clientError m =>
        refine Or.inr (Or.inl ⟨record_id, title, ?_⟩)
        simp [lambda_handler, get_record, hf, hrid0, ht0]
      | response record =>
        have hmiss : ∀ hm : record = none ∨ record = some [],
            (lambda_handler b ⟨some record_id, some title, eO⟩).2 =
              (lambda_handler_miss b record_id title eO).2 := by
          intro hm
          rw [lambda_handler_eq_miss b eO record_id title record hrid0 ht0 hf hm]
        cases record with
        | some item0 =>
          cases item0 with
          | nil =>
            rcases lambda_handler_miss_trace b record_id title eO with h | ⟨item, h, p, hp1, hp2⟩
            · refine Or.inr (Or.inr (Or.inl ⟨record_id, title, ?_, some [], ?_, Or.inr rfl⟩))
              · rw [hmiss (Or.inr rfl)]; exact h
              · simp [get_record, hf]
            · refine Or.inr (Or.inr (Or.inr ⟨record_id, title, item, ?_,
                ⟨some [], ?_, Or.inr rfl⟩, p, hp1, hp2⟩))
              · rw [hmiss (Or.inr rfl)]; exact h
              · simp [get_record, hf]
          | cons x xs =>
            refine Or.inr (Or.inl ⟨record_id, title, ?_⟩)
            simp [lambda_handler, get_record, hf, hrid0, ht0]
        | none =>
          rcases lambda_handler_miss_trace b record_id title eO with h | ⟨item, h, p, hp1, hp2⟩
          · refine Or.inr (Or.inr (Or.inl ⟨record_id, title, ?_, none, ?_, Or.inl rfl⟩))
            · rw [hmiss (Or.inl rfl)]; exact h
            · simp [get_record, hf]
          · refine Or.inr (Or.inr (Or.inr ⟨record_id, title, item, ?_,
              ⟨none, ?_, Or.inl rfl⟩, p, hp1, hp2⟩))
            · rw [hmiss (Or.inl rfl)]; exact h
            · simp [get_record, hf]

/-- C8: the handler is a total function — for every input event and
every collaborator outcome it returns a response, never an exception.
Its status code is always 200, 400 or 501; every non-200 response has a
body of the uniform shape `{"error": <message>}`; and the 400 tier is
returned exactly for validation failures (absent or empty `RecordID` or
`Title`), all other failures sharing the single catch-all 501 tier. -/
theorem C8_total_uniform_two_tier (b : Behavior) (e : Event) :
    ((lambda_handler b e).1.statusCode = 200 ∨
     (lambda_handler b e).1.statusCode = 400 ∨
     (lambda_handler b e).1.statusCode = 501) ∧
    ((lambda_handler b e).1.statusCode ≠ 200 →
      ∃ m, (lambda_handler b e).1.body = Body.error m) ∧
    ((lambda_handler b e).1.statusCode = 400 ↔
      (e.RecordID = none ∨ e.RecordID = some "" ∨
       e.Title = none ∨ e.Title = some "")) := by
  obtain ⟨eR, eT, eO⟩ := e
  cases eR with
  | none =>
    cases eT <;>
      exact ⟨Or.inr (Or.inl rfl), fun _ => ⟨_, rfl⟩,
        iff_of_true rfl (Or.inl rfl)⟩
  | some record_id =>
    cases eT with
    | none =>
      exact ⟨Or.inr (Or.inl rfl), fun _ => ⟨_, rfl⟩,
        iff_of_true rfl (Or.inr (Or.inr (Or.inl rfl)))⟩
    | some title =>
      by_cases hrid0 : record_id = ""
      · subst hrid0
        have hL : lambda_handler b ⟨some "", some title, eO⟩ =
            invalid_input_response := by
          simp [lambda_handler]
        rw [hL]
        exact ⟨Or.inr (Or.inl rfl), fun _ => ⟨_, rfl⟩,
          iff_of_true rfl (Or.inr (Or.inl rfl))⟩
      by_cases ht0 : title = ""
      · subst ht0
        have hL : lambda_handler b ⟨some record_id, some "", eO⟩ =
            invalid_input_response := by
          simp [lambda_handler]
        rw [hL]
        exact ⟨Or.inr (Or.inl rfl), fun _ => ⟨_, rfl⟩,
          iff_of_true rfl (Or.inr (Or.inr (Or.inr rfl)))⟩
      have hrhs : ¬(some record_id = none ∨ some record_id = some "" ∨
          some title = none ∨ some title = some "") := by
        simp [hrid0, ht0]
      cases hf : b.fetch with
      | clientError m =>
        have hL : lambda_handler b ⟨some record_id, some title, eO⟩ =
            (⟨501, Body.error ("DynamoDB error: " ++ m)⟩,
             [Effect.storeGet record_id title]) := by
          simp [lambda_handler, get_record, hf, hrid0, ht0]
        rw [hL]
        exact ⟨Or.inr (Or.inr rfl), fun _ => ⟨_, rfl⟩, by simpa using hrhs⟩
      | response record =>
        cases record with
        | some item0 =>
          cases item0 with
          | nil =>
            rw [lambda_handler_eq_miss b eO record_id title (some [])
                  hrid0 ht0 hf (Or.inr rfl)]
            rcases lambda_handler_miss_status b record_id title eO with
              ⟨p, h⟩ | ⟨m, h⟩ <;> rw [h]
            · exact ⟨Or.inl rfl, fun hc => absurd rfl hc, by simpa using hrhs⟩
            · exact ⟨Or.inr (Or.inr rfl), fun _ => ⟨_, rfl⟩, by simpa using hrhs⟩
          | cons x xs =>
            have hL : lambda_handler b ⟨some record_id, some title, eO⟩ =
                (⟨200, Body.ok "Record found." (x :: xs)⟩,
                 [Effect.storeGet record_id title]) := by
              simp [lambda_handler, get_record, hf, hrid0, ht0]
            rw [hL]
            exact ⟨Or.inl rfl, fun hc => absurd rfl hc, by simpa using hrhs⟩
        | none =>
          rw [lambda_handler_eq_miss b eO record_id title none
                hrid0 ht0 hf (Or.inl rfl)]
          rcases lambda_handler_miss_status b record_id title eO with
            ⟨p, h⟩ | ⟨m, h⟩ <;> rw [h]
          · exact ⟨Or.inl rfl, fun hc => absurd rfl hc, by simpa using hrhs⟩
          · exact ⟨Or.inr (Or.inr rfl), fun _ => ⟨_, rfl⟩, by simpa using hrhs⟩

/-- C10: the handler is deterministic as a function of its input event
and the collaborator outcomes — two invocations with identical events,
identical lookup results, identical analysis responses and identical
write outcomes produce identical responses and identical effect traces
(in particular, identical written items).  The embedding exposes every
input the code reads; there is no randomness, clock or mutable state. -/
theorem C10_deterministic (b₁ b₂ : Behavior) (e₁ e₂ : Event)
    (hb : b₁ = b₂) (he : e₁ = e₂) :
    lambda_handler b₁ e₁ = lambda_handler b₂ e₂ := by
  rw [hb, he]

/-- C10, witness: two textually separate but equal invocations of the
concrete scenario coincide. -/
theorem C10_witness :
    lambda_handler behavior7 event7 =
      lambda_handler
        ⟨FetchOutcome.response none, AnalyzeOutcome.content (some payload7),
         PutOutcome.success⟩
        ⟨some "7", some "La Vita è Bella", some "Italian"⟩ :=
  C10_deterministic behavior7
    ⟨FetchOutcome.response none, AnalyzeOutcome.content (some payload7),
     PutOutcome.success⟩
    event7 ⟨some "7", some "La Vita è Bella", some "Italian"⟩ rfl rfl

end EmmyCode
